import Mathlib

/-!
Verification of the SecretsScanner service scan pipeline.

This file gives a shallow embedding, in Lean 4, of the parts of the
SecretsScanner service that the specification's claims are about:

* `app/repo_utils.py` — archive extraction (`safe_extract`, the
  `zipfile.extractall` path actually used by `download_repo_azure` and
  `download_github_repo`);
* `app/scanner.py` — the per-file scanning engine (`_analyze_file`),
  directory scan (`scan_directory_without_callback`) and rule loading;
* `app/model_loader.py` — the batch classifier (`filter_secrets`,
  `filter_secrets_in_process`) and its error fallbacks;
* `app/queue_worker.py` — the CPU-pool stage (`scan_repo_with_model`),
  single-scan processing (`process_request_async`) and the callback
  envelope (`send_callback`);
* `app/main.py` — the ingress endpoints (`/scan`, `/multi_scan`,
  `/local_scan`) with their queue back-pressure checks.

Python strings are modelled as Lean `String`s, bytes as `Nat`s below 256,
machine reals (probabilities, confidences) as `ℚ`, regular-expression
search and MD5 hashing as explicit function parameters (the embedding
never depends on their internals), and Python dicts with optional keys as
structures with `Option` fields.
-/

/-! ### Python string primitives -/

/-- Lower-case a string character-by-character (Python `str.lower` on the
identifiers appearing in this code base, which are ASCII). -/
def toLowerStr (s : String) : String :=
  ⟨s.data.map Char.toLower⟩

/-- Whether `needle` occurs as a contiguous run of characters of `hay`:
Python's `needle in hay` on strings. -/
def subChars (needle : List Char) : List Char → Bool
  | [] => needle.isEmpty
  | c :: cs => needle.isPrefixOf (c :: cs) || subChars needle cs

/-- Python `needle in hay` for strings. -/
def subStr (needle hay : String) : Bool :=
  subChars needle.data hay.data

/-- Python `str.strip()`: remove leading and trailing whitespace. -/
def pyStrip (s : String) : String :=
  ⟨(s.data.dropWhile Char.isWhitespace).reverse.dropWhile Char.isWhitespace |>.reverse⟩

/-- Replace every (non-overlapping, leftmost-first) occurrence of `old`
by `new`, as Python `str.replace`; an empty `old` is treated as
"replace nothing" (the scanner only ever passes non-empty directories). -/
def replaceChars (old new : List Char) : List Char → List Char
  | [] => []
  | c :: cs =>
    if h : old ≠ [] ∧ old.isPrefixOf (c :: cs) then
      new ++ replaceChars old new ((c :: cs).drop old.length)
    else
      c :: replaceChars old new cs
termination_by s => s.length
decreasing_by
  · simp only [List.length_drop, List.length_cons]
    have : 0 < old.length := List.length_pos.mpr h.1
    omega
  · simp

/-- Python `s.replace(old, new)`. -/
def pyReplace (s old new : String) : String :=
  ⟨replaceChars old.data new.data s.data⟩

/-- Split a character list on a separator character, keeping empty
pieces, as Python `str.split(sep)` does. -/
def splitChars (sep : Char) : List Char → List (List Char)
  | [] => [[]]
  | c :: rest =>
    if c = sep then [] :: splitChars sep rest
    else
      match splitChars sep rest with
      | [] => [[c]]
      | h :: t => (c :: h) :: t

/-- Join character lists with a separator string, as `sep.join(pieces)`. -/
def joinChars (sep : List Char) : List (List Char) → List Char
  | [] => []
  | [p] => p
  | p :: rest => p ++ sep ++ joinChars sep rest

/-- Whether `pre` starts `s` (Python `str.startswith`). -/
def startsWithStr (pre s : String) : Bool :=
  pre.data.isPrefixOf s.data

/-- Whether `suf` ends `s` (Python `str.endswith`). -/
def endsWithStr (suf s : String) : Bool :=
  suf.data.reverse.isPrefixOf s.data.reverse

/-- Python `os.path.basename` on POSIX-style archive member names:
everything after the last `/`. -/
def osBasename (s : String) : String :=
  ⟨(splitChars '/' s.data).getLastD []⟩

/-- The extension part of Python `os.path.splitext`: the suffix starting
at the last dot, empty when the name has no dot or only leading dots. -/
def splitextExt (s : String) : String :=
  let cs := s.data
  let rev := cs.reverse
  match rev.findIdx? (· = '.') with
  | none => ""
  | some i =>
    -- dots that begin the name do not start an extension
    if (cs.take (cs.length - i - 1)).all (· = '.') then ""
    else ⟨(rev.take (i + 1)).reverse⟩

/-- Python `os.path.isabs` on POSIX paths. -/
def osIsAbs (s : String) : Bool :=
  startsWithStr "/" s

/-- Python `os.path.join a b` for the cases arising here (POSIX). -/
def osJoin (a b : String) : String :=
  if osIsAbs b then b
  else if a = "" then b
  else if endsWithStr "/" a then a ++ b
  else a ++ "/" ++ b

/-- Python `os.path.split`: directory part and final component. -/
def osSplit (p : String) : String × String :=
  let cs := p.data
  let rev := cs.reverse
  match rev.findIdx? (· = '/') with
  | none => ("", p)
  | some i =>
    let head := cs.take (cs.length - i)
    let tail := (rev.take i).reverse
    if head.all (· = '/') then (⟨head⟩, ⟨tail⟩)
    else (⟨head.reverse.dropWhile (· = '/') |>.reverse⟩, ⟨tail⟩)

/-- Python `s[:n]` on strings. -/
def takeStr (n : Nat) (s : String) : String :=
  ⟨s.data.take n⟩

/-! ### Archive extraction (`app/repo_utils.py`)

`safe_extract` (lines 101–142) filters archive members; but the actual
extraction paths — `download_repo_azure` line 179, `download_github_repo`
line 218, and `extract_zip_file` in `app/queue_worker.py` — call
`zip_file.extractall`, whose member-path handling is CPython's
`ZipFile._extract_member` sanitization.  Archive members are modelled by
their names; extraction functions return the list of file paths written,
relative to the extraction root.  `MAX_PATH = 250` (line 40). -/

/-- CPython `ZipFile._extract_member` path sanitization on POSIX: split
the member name on `/` and drop empty, `.` and `..` components, so the
written path is always relative to the extraction root. -/
def sanitizeZipName (name : String) : String :=
  ⟨joinChars ['/'] ((splitChars '/' name.data).filter
    (fun x => x ≠ [] && x ≠ ['.'] && x ≠ ['.', '.']))⟩

/-- Files written by `zip_file.extractall`: every non-directory member,
at its sanitized name under the extraction root. -/
def extractallFiles (entries : List String) : List String :=
  (entries.filter (fun n => !endsWithStr "/" n)).map sanitizeZipName

/-- `safe_extract(zip_file, extract_path)` from `app/repo_utils.py`
lines 101–142, parameterized by the `EXCLUDED_FILES` / `EXCLUDED_EXTENSIONS`
sets loaded from `Settings/`: skip absolute names and names containing
`..`, skip excluded lower-cased basenames and excluded extensions,
then write to `os.path.join(extract_path, filename)` (basename truncated
to 100 characters when the full path exceeds `MAX_PATH = 250`). -/
def safeExtractFiles (exclFiles exclExts : List String)
    (extractPath : String) (entries : List String) : List String :=
  entries.filterMap fun filename =>
    if osIsAbs filename || subStr ".." filename then none
    else
      let basename := toLowerStr (osBasename filename)
      if basename ∈ exclFiles then none
      else
        let fileExt := splitextExt basename
        if fileExt ∈ exclExts then none
        else
          let fullPath := osJoin extractPath filename
          let fullPath :=
            if fullPath.length > 250 then
              let (base, name) := osSplit fullPath
              osJoin base (takeStr 100 name)
            else fullPath
          some fullPath

/-- The extraction step of `download_repo_azure` (`app/repo_utils.py`
line 179): `zip_file.extractall(extract_path)` — the call to
`safe_extract` on line 180 is commented out, so no filtering happens. -/
def downloadRepoAzureExtractedFiles (entries : List String) : List String :=
  extractallFiles entries

/-- The extraction step of `download_github_repo` (`app/repo_utils.py`
line 218): also plain `zip_file.extractall(extract_path)`. -/
def downloadGithubRepoExtractedFiles (entries : List String) : List String :=
  extractallFiles entries

example : sanitizeZipName "../evil.txt" = "evil.txt" := by decide
example : sanitizeZipName "/etc/passwd" = "etc/passwd" := by decide
example :
    downloadRepoAzureExtractedFiles ["repo/run.exe", "repo/autorun.inf", "../evil.txt"]
      = ["repo/run.exe", "repo/autorun.inf", "evil.txt"] := by decide
example :
    safeExtractFiles ["autorun.inf"] [".exe"] "ex" ["repo/run.exe", "repo/autorun.inf", "../evil.txt"]
      = [] := by decide

/-- C1: For every archive fetched by the Ref Resolver / Fetcher, extraction
writes no file outside the extraction root (entries with absolute paths or
containing `..` are rejected), and no file whose lower-cased basename is in
the excluded-files set or whose extension is in the excluded-extensions set
appears in the extracted tree.  REFUTED BY THE CODE: `download_repo_azure`
extracts with `zip_file.extractall` (the `safe_extract` call on
`app/repo_utils.py` line 180 is commented out), so an archive containing
`repo/run.exe` and `repo/autorun.inf` has both written into the extracted
tree even when `.exe` is an excluded extension and `autorun.inf` an excluded
file — while `safe_extract` itself would have filtered all of them. -/
theorem c1_extractall_extracts_excluded_files :
    "repo/run.exe" ∈
        downloadRepoAzureExtractedFiles ["repo/run.exe", "repo/autorun.inf", "../evil.txt"]
      ∧ splitextExt (toLowerStr (osBasename "repo/run.exe")) = ".exe"
      ∧ "repo/autorun.inf" ∈
        downloadRepoAzureExtractedFiles ["repo/run.exe", "repo/autorun.inf", "../evil.txt"]
      ∧ toLowerStr (osBasename "repo/autorun.inf") = "autorun.inf"
      ∧ safeExtractFiles ["autorun.inf"] [".exe"] "ex"
          ["repo/run.exe", "repo/autorun.inf", "../evil.txt"] = [] := by
  refine ⟨?_, by decide, ?_, by decide, by decide⟩ <;> decide

/-! ### The rule catalog and findings (`app/scanner.py`) -/

/-- One entry of `Settings/rules.yml`: `{id, message, pattern, severity}`. -/
structure Rule where
  id : String := ""
  message : String
  pattern : String
  severity : String := ""
  deriving DecidableEq, Repr

/-- A finding dict as built by the scanner and decorated by the
classifier.  Python dict keys that a given producer does not set are
modelled as `none`: the scanner's sentinel findings carry no
`confidence` key, only the classifier sets the `secret_confidence`,
`secret_prediction`, `context_confidence`, `context_prediction` and
`confidence_averaged` keys. -/
structure FindingDict where
  path : String := ""
  line : Nat := 0
  secret : String := ""
  context : String := ""
  severity : String := ""
  confidence : Option ℚ := none
  type : String := ""
  secretConfidence : Option ℚ := none
  secretPrediction : Option Bool := none
  contextConfidence : Option ℚ := none
  contextPrediction : Option Bool := none
  confidenceAveraged : Option Bool := none
  deriving DecidableEq, Repr

/-- `load_rules` (`app/scanner.py` lines 27–32): return the YAML parse of
`Settings/rules.yml` unchanged, or `None` when reading fails.  No per-rule
processing (in particular no pattern compilation check) happens here. -/
def load_rules (parsed : Except String (List Rule)) : Option (List Rule) :=
  match parsed with
  | .ok rules => some rules
  | .error _ => none

/-- `check_false_positive(secret, context, FALSE_POSITIVE_RULES)`
(`app/scanner.py` lines 334–337): true when any false-positive pattern
occurs, case-insensitively, in the context line.  (`secret` is accepted
but unused, as in the source.) -/
def check_false_positive (secret context : String) (falsePositiveRules : List String) : Bool :=
  let _ := secret
  let contextLower := toLowerStr context
  falsePositiveRules.any (fun pattern => subStr (toLowerStr pattern) contextLower)

/-- `get_full_extension` (`app/scanner.py` lines 339–340):
`os.path.splitext(filename)[1].lower()`. -/
def get_full_extension (filename : String) : String :=
  toLowerStr (splitextExt filename)

/-- `is_extension_excluded` (`app/scanner.py` lines 342–346). -/
def is_extension_excluded (fileExt : String) (excludedExtensions : List String) : Bool :=
  fileExt ∈ excludedExtensions

/-- Python `enumerate(lines, start=n)`. -/
def pyEnumerate (start : Nat) : List α → List (Nat × α)
  | [] => []
  | x :: xs => (start, x) :: pyEnumerate (start + 1) xs

/-! ### The per-file scanning engine (`_analyze_file`, `app/scanner.py`
lines 353–410)

Regex search (`re.search(rule["pattern"], line)`, returning
`match.group(0)`) is a parameter `search : String → String → Option String`
(pattern, line ↦ first matched substring), and
`hashlib.md5(·).hexdigest()` a parameter `md5 : String → String`. -/

/-- The file path stored in findings:
`file_path.replace(target_dir, "").replace("\\", "/")`. -/
def findingPath (targetDir filePath : String) : String :=
  pyReplace (pyReplace filePath targetDir "") "\\" "/"

/-- The Too-Long-Line sentinel finding appended for a line longer than
`max_line_length` (`app/scanner.py` lines 364–374). -/
def tooLongLineFinding (md5 : String → String) (relPath : String)
    (maxLineLength lineNum : Nat) (line : String) : FindingDict :=
  { path := relPath
    line := lineNum
    secret := "СТРОКА НЕ СКАНИРОВАЛАСЬ т.к. её длина более " ++ toString maxLineLength
      ++ " символов. Проверьте строку вручную. Хеш строки: " ++ md5 line
    context := "Строка " ++ toString lineNum
      ++ " содержит большое количество символов. Длина: " ++ toString line.length ++ "."
    severity := "Potential"
    type := "Too Long Line" }

/-- The per-line rule loop of `_analyze_file` (`app/scanner.py` lines
376–391): every rule is searched against the line, and every match that
is not a false positive is appended — there is no break after the first
matching rule. -/
def scanLineRules (search : String → String → Option String) (rules : List Rule)
    (falsePositiveRules : List String) (relPath : String)
    (lineNum : Nat) (line : String) : List FindingDict :=
  rules.filterMap fun rule =>
    match search rule.pattern line with
    | none => none
    | some secret =>
      let context := pyStrip line
      if check_false_positive secret context falsePositiveRules then none
      else some
        { path := relPath
          line := lineNum
          secret := secret
          context := context
          severity := ""
          confidence := some 1
          type := rule.message }

/-- The `results` accumulator of `_analyze_file` just before the final
cap check: one Too-Long-Line sentinel per over-long line (over-long lines
are `continue`d past the rule loop). -/
def fileSentinels (md5 : String → String) (relPath : String)
    (maxLineLength : Nat) (lines : List String) : List FindingDict :=
  (pyEnumerate 1 lines).filterMap fun (lineNum, line) =>
    if line.length > maxLineLength then
      some (tooLongLineFinding md5 relPath maxLineLength lineNum line)
    else none

/-- The `all_secrets` accumulator of `_analyze_file`: rule findings of
every line that is not over-long; `secrets_found` is its length. -/
def fileSecrets (search : String → String → Option String) (rules : List Rule)
    (falsePositiveRules : List String) (relPath : String)
    (maxLineLength : Nat) (lines : List String) : List FindingDict :=
  (pyEnumerate 1 lines).flatMap fun (lineNum, line) =>
    if line.length > maxLineLength then []
    else scanLineRules search rules falsePositiveRules relPath lineNum line

/-- The Too-Many-Secrets sentinel replacing the whole per-file output
when `secrets_found > max_secrets` (`app/scanner.py` lines 393–403). -/
def tooManySecretsFinding (md5 : String → String) (relPath : String)
    (maxSecrets : Nat) (allSecrets : List FindingDict) : FindingDict :=
  let allSecretsString := ⟨joinChars ['\n'] (allSecrets.map (·.secret.data))⟩
  { path := relPath
    line := 0
    secret := "ФАЙЛ НЕ ВЫВЕДЕН ПОЛНОСТЬЮ т.к. найдено более " ++ toString maxSecrets
      ++ " секретов. Проверьте файл вручную. Хеш всех секретов: " ++ md5 allSecretsString
    context := "Найдено секретов: " ++ toString allSecrets.length
      ++ "\nСписок найденных секретов ниже:\n" ++ allSecretsString
    severity := "High"
    type := "Too Many Secrets" }

/-- `_analyze_file` (`app/scanner.py` lines 353–410), for a file whose
lines were read successfully: accumulate sentinels and rule findings; if
more than `max_secrets` rule findings were counted the entire output is
replaced by the single Too-Many-Secrets sentinel, otherwise it is the
sentinels followed by the rule findings. -/
def analyzeFile (search : String → String → Option String) (md5 : String → String)
    (rules : List Rule) (falsePositiveRules : List String)
    (maxSecrets maxLineLength : Nat) (targetDir filePath : String)
    (lines : List String) : List FindingDict :=
  let relPath := findingPath targetDir filePath
  let results := fileSentinels md5 relPath maxLineLength lines
  let allSecrets := fileSecrets search rules falsePositiveRules relPath maxLineLength lines
  let secretsFound := allSecrets.length
  if secretsFound > maxSecrets then
    [tooManySecretsFinding md5 relPath maxSecrets allSecrets]
  else
    results ++ allSecrets

/-- `re.search` restricted to patterns that are plain literals (no regex
metacharacters): succeeds exactly when the pattern occurs in the line,
and the matched group is the pattern itself.  Used to instantiate the
`search` parameter on concrete inputs. -/
def literalSearch (pattern line : String) : Option String :=
  if subStr pattern line then some pattern else none

example :
    (analyzeFile literalSearch (fun _ => "d41d8") [⟨"", "Password", "password", "High"⟩]
      [] 50 15000 "/tmp/x" "/tmp/x/config.env" ["password = hunter2"]).length = 1 := by
  decide

example :
    analyzeFile literalSearch (fun _ => "d41d8") [⟨"", "Password", "password", "High"⟩]
      ["hunter2"] 50 15000 "/tmp/x" "/tmp/x/config.env" ["password = hunter2"] = [] := by
  decide

/-! ### List helper lemmas -/

theorem pyEnumerate_length (start : Nat) (xs : List α) :
    (pyEnumerate start xs).length = xs.length := by
  induction xs generalizing start with
  | nil => rfl
  | cons x xs ih => simp [pyEnumerate, ih]

theorem pyEnumerate_mem {p : Nat × α} :
    ∀ (start : Nat) (xs : List α), p ∈ pyEnumerate start xs → p.2 ∈ xs := by
  intro start xs
  induction xs generalizing start with
  | nil => simp [pyEnumerate]
  | cons x xs ih =>
    intro hp
    cases hp with
    | head => simp
    | tail _ hp => exact List.mem_cons_of_mem _ (ih _ hp)

theorem filterMap_length_of_all_some (f : α → Option β) :
    ∀ (l : List α), (∀ x ∈ l, (f x).isSome) → (l.filterMap f).length = l.length := by
  intro l
  induction l with
  | nil => intro _; rfl
  | cons x xs ih =>
    intro h
    have hx := h x (List.mem_cons_self x xs)
    rcases hfx : f x with _ | b
    · rw [hfx] at hx; simp at hx
    · simp only [List.filterMap_cons, hfx, List.length_cons]
      rw [ih fun y hy => h y (List.mem_cons_of_mem _ hy)]

theorem flatMap_eq_nil_of_forall (f : α → List β) (l : List α)
    (h : ∀ x ∈ l, f x = []) : l.flatMap f = [] := by
  simp only [List.flatMap_eq_nil_iff]
  exact fun x hx => h x hx

theorem isPrefixOf_self_append (a b : List Char) : a.isPrefixOf (a ++ b) = true := by
  induction a with
  | nil => simp [List.isPrefixOf]
  | cons c cs ih => simp [List.isPrefixOf, ih]

theorem subChars_self_append (n b : List Char) : subChars n (n ++ b) = true := by
  cases n with
  | nil => cases b <;> simp [subChars, List.isPrefixOf]
  | cons m ms =>
    show (List.isPrefixOf (m :: ms) (m :: ms ++ b) || _) = true
    rw [isPrefixOf_self_append]
    simp

theorem subChars_append_left (n a hay : List Char) (h : subChars n hay = true) :
    subChars n (a ++ hay) = true := by
  induction a with
  | nil => simpa using h
  | cons c cs ih =>
    show (_ || subChars n (cs ++ hay)) = true
    rw [ih]
    simp

/-- `needle in a ++ needle ++ b` always holds. -/
theorem subChars_append_middle (n a b : List Char) : subChars n (a ++ (n ++ b)) = true :=
  subChars_append_left n a (n ++ b) (subChars_self_append n b)

theorem subChars_append_right (n a : List Char) : subChars n (a ++ n) = true := by
  have h := subChars_append_middle n a []
  simpa using h

theorem fileSentinels_aux_length (md5 : String → String) (relPath : String)
    (maxLineLength : Nat) :
    ∀ (s : Nat) (lines : List String),
      ((pyEnumerate s lines).filterMap fun (lineNum, line) =>
          if line.length > maxLineLength then
            some (tooLongLineFinding md5 relPath maxLineLength lineNum line)
          else none).length
        = (lines.filter fun l => maxLineLength < l.length).length := by
  intro s lines
  induction lines generalizing s with
  | nil => rfl
  | cons l ls ih =>
    by_cases h : maxLineLength < l.length
    · simp [pyEnumerate, List.filterMap_cons, List.filter_cons, h, ih]
    · simp [pyEnumerate, List.filterMap_cons, List.filter_cons, h, ih]

/-- There is exactly one Too-Long-Line sentinel per over-long line. -/
theorem fileSentinels_length (md5 : String → String) (relPath : String)
    (maxLineLength : Nat) (lines : List String) :
    (fileSentinels md5 relPath maxLineLength lines).length
      = (lines.filter fun l => maxLineLength < l.length).length :=
  fileSentinels_aux_length md5 relPath maxLineLength 1 lines

/-- C3 counterexample: with the default caps (`max_secrets = 50`,
`max_line_length = 15000`), a file of 52 lines of 15001 characters makes
`_analyze_file` emit 52 findings (one Too-Long-Line sentinel per line),
exceeding the claimed bound `max_secrets_per_file + 1 = 51`: the
Too-Long-Line sentinels are not counted against the cap. -/
theorem c3_counterexample :
    (analyzeFile literalSearch (fun _ => "") [] [] 50 15000 "" "/f"
        (List.replicate 52 (String.mk (List.replicate 15001 'a')))).length = 52
      ∧ ¬ ((analyzeFile literalSearch (fun _ => "") [] [] 50 15000 "" "/f"
        (List.replicate 52 (String.mk (List.replicate 15001 'a')))).length ≤ 50 + 1) := by
  have hsec : fileSecrets literalSearch [] [] (findingPath "" "/f") 15000
      (List.replicate 52 (String.mk (List.replicate 15001 'a'))) = [] := by
    apply flatMap_eq_nil_of_forall
    rintro ⟨n, l⟩ _
    by_cases h : l.length > 15000 <;> simp [h, scanLineRules]
  have hlen : (analyzeFile literalSearch (fun _ => "") [] [] 50 15000 "" "/f"
      (List.replicate 52 (String.mk (List.replicate 15001 'a')))).length = 52 := by
    simp only [analyzeFile, hsec, List.length_nil, List.append_nil]
    rw [if_neg (by omega)]
    rw [fileSentinels_length]
    rw [List.filter_eq_self.mpr ?_, List.length_replicate]
    intro l hl
    have hl' := List.eq_of_mem_replicate hl
    subst hl'
    show decide (15000 < (List.replicate 15001 'a').length) = true
    rw [List.length_replicate]
    decide
  exact ⟨hlen, by omega⟩

/-- C3 (corrected): For every scanned file, `_analyze_file` emits at most
`max_secrets_per_file + 1` findings *plus one Too-Long-Line sentinel per
line longer than `max_line_length`* (the sentinels are not counted
against the cap — the original bound `max_secrets_per_file + 1` fails,
see the counterexample); and whenever the number of rule matches
surviving the false-positive filter exceeds `max_secrets_per_file`, the
file's entire output (sentinels included) is replaced by exactly one
Too-Many-Secrets sentinel whose `secret` contains the MD5 digest of the
newline-joined discarded match strings. -/
theorem c3_per_file_cap (search : String → String → Option String) (md5 : String → String)
    (rules : List Rule) (falsePositiveRules : List String)
    (maxSecrets maxLineLength : Nat) (targetDir filePath : String) (lines : List String) :
    (analyzeFile search md5 rules falsePositiveRules maxSecrets maxLineLength
        targetDir filePath lines).length
      ≤ maxSecrets + (lines.filter fun l => maxLineLength < l.length).length + 1
    ∧ ((fileSecrets search rules falsePositiveRules (findingPath targetDir filePath)
          maxLineLength lines).length > maxSecrets →
        analyzeFile search md5 rules falsePositiveRules maxSecrets maxLineLength
            targetDir filePath lines
          = [tooManySecretsFinding md5 (findingPath targetDir filePath) maxSecrets
              (fileSecrets search rules falsePositiveRules (findingPath targetDir filePath)
                maxLineLength lines)]
        ∧ subStr
            (md5 ⟨joinChars ['\n']
              ((fileSecrets search rules falsePositiveRules (findingPath targetDir filePath)
                maxLineLength lines).map (·.secret.data))⟩)
            (tooManySecretsFinding md5 (findingPath targetDir filePath) maxSecrets
              (fileSecrets search rules falsePositiveRules (findingPath targetDir filePath)
                maxLineLength lines)).secret = true) := by
  by_cases hc : (fileSecrets search rules falsePositiveRules (findingPath targetDir filePath)
      maxLineLength lines).length > maxSecrets
  · constructor
    · simp only [analyzeFile, if_pos hc, List.length_singleton]
      omega
    · intro _
      refine ⟨by simp only [analyzeFile, if_pos hc], ?_⟩
      show subChars _ _ = true
      rcases hm : md5 ⟨joinChars ['\n']
          ((fileSecrets search rules falsePositiveRules (findingPath targetDir filePath)
            maxLineLength lines).map (·.secret.data))⟩ with ⟨mdata⟩
      simp only [tooManySecretsFinding, hm, String.data_append]
      exact subChars_append_right mdata _
  · constructor
    · simp only [analyzeFile, if_neg hc, List.length_append, fileSentinels_length]
      omega
    · intro h
      exact absurd h hc

/-- Witness for `c3_per_file_cap` at a concrete input: two matching
lines against a cap of 1 trigger the Too-Many-Secrets replacement. -/
theorem c3_per_file_cap_witness :
    (analyzeFile literalSearch (fun _ => "beef") [⟨"", "R", "p", ""⟩] [] 1 15000
        "" "/f" ["p", "p"]).length
      ≤ 1 + ((["p", "p"].filter fun l => 15000 < l.length)).length + 1
    ∧ analyzeFile literalSearch (fun _ => "beef") [⟨"", "R", "p", ""⟩] [] 1 15000
          "" "/f" ["p", "p"]
        = [tooManySecretsFinding (fun _ => "beef") (findingPath "" "/f") 1
            (fileSecrets literalSearch [⟨"", "R", "p", ""⟩] [] (findingPath "" "/f")
              15000 ["p", "p"])]
    ∧ subStr
        ((fun _ => "beef") (⟨joinChars ['\n']
          ((fileSecrets literalSearch [⟨"", "R", "p", ""⟩] [] (findingPath "" "/f")
            15000 ["p", "p"]).map (·.secret.data))⟩ : String))
        (tooManySecretsFinding (fun _ => "beef") (findingPath "" "/f") 1
          (fileSecrets literalSearch [⟨"", "R", "p", ""⟩] [] (findingPath "" "/f")
            15000 ["p", "p"])).secret = true := by
  have h := c3_per_file_cap literalSearch (fun _ => "beef") [⟨"", "R", "p", ""⟩] [] 1 15000
    "" "/f" ["p", "p"]
  have hgt : (fileSecrets literalSearch [⟨"", "R", "p", ""⟩] [] (findingPath "" "/f")
      15000 ["p", "p"]).length > 1 := by decide
  exact ⟨h.1, (h.2 hgt).1, (h.2 hgt).2⟩

/-- C4 counterexample: two rules whose patterns (`pwd`, `wd`) both match
the single line `pwd = 1` each emit a finding — the rule loop of
`_analyze_file` has no break, so the claimed "at most one Finding per
line, later rules produce none" fails. -/
theorem c4_counterexample :
    (analyzeFile literalSearch (fun _ => "")
        [⟨"", "R1", "pwd", "High"⟩, ⟨"", "R2", "wd", "High"⟩]
        [] 50 15000 "" "/f" ["pwd = 1"]).map (·.type) = ["R1", "R2"]
      ∧ ¬ ((analyzeFile literalSearch (fun _ => "")
        [⟨"", "R1", "pwd", "High"⟩, ⟨"", "R2", "wd", "High"⟩]
        [] 50 15000 "" "/f" ["pwd = 1"]).length ≤ 1) := by
  constructor <;> decide

/-- C4 (corrected): For every line, the scanner emits one Finding per
rule whose pattern matches the line and survives the false-positive
filter — not only the first — and the findings appear in catalog order,
each typed with its own rule's `message` (so the first Finding for a
line does take its type from the first matching rule, but later matching
rules emit Findings too). -/
theorem c4_one_finding_per_matching_rule (search : String → String → Option String)
    (rules : List Rule) (falsePositiveRules : List String)
    (relPath : String) (lineNum : Nat) (line : String) :
    (scanLineRules search rules falsePositiveRules relPath lineNum line).map (·.type)
      = (rules.filter fun rule =>
          match search rule.pattern line with
          | some secret => !check_false_positive secret (pyStrip line) falsePositiveRules
          | none => false).map (·.message) := by
  induction rules with
  | nil => rfl
  | cons r rs ih =>
    rcases hm : search r.pattern line with _ | s
    · simpa [scanLineRules, List.filterMap_cons, List.filter_cons, hm] using ih
    · by_cases hfp : check_false_positive s (pyStrip line) falsePositiveRules
      · simpa [scanLineRules, List.filterMap_cons, List.filter_cons, hm, hfp] using ih
      · simpa [scanLineRules, List.filterMap_cons, List.filter_cons, hm, hfp] using ih

/-! ### The batch classifier (`app/model_loader.py`)

The trained model is opaque to the claims: `model.predict_proba(·)[1]`
(probability of class 1) is a parameter `p : String → ℚ` and
`model.predict` a parameter `predict : String → Bool`; the fallible
versions `pE`, `predictE` return `Except Unit` so that a raised
`sklearn` exception can be modelled.  Python `round` is round-half-even
(banker's rounding). -/

/-- Python `round` to an integer: round-half-to-even. -/
def roundHalfEven (q : ℚ) : ℤ :=
  let f := q.floor
  let frac := q - f
  if frac < 1/2 then f
  else if 1/2 < frac then f + 1
  else if f % 2 = 0 then f else f + 1

/-- Python `round(q, ndigits)`. -/
def pyRound (q : ℚ) (ndigits : Nat) : ℚ :=
  (roundHalfEven (q * 10 ^ ndigits) : ℚ) / 10 ^ ndigits

/-- The special-case test of `filter_secrets` (`app/model_loader.py`
line 523): whether the Too-Long-Line / Too-Many-Secrets sentinel text
occurs in the finding's `secret`. -/
def sentinelSecret (s : String) : Bool :=
  subStr "СТРОКА НЕ СКАНИРОВАЛАСЬ т.к. её длина" s
    || subStr "ФАЙЛ НЕ ВЫВЕДЕН ПОЛНОСТЬЮ т.к." s

/-- The per-item decoration loop body of `filter_secrets`
(`app/model_loader.py` lines 494–534): record the secret's probability
and prediction; when a context probability exists record it and average
the confidence; then the sentinel check forces `confidence = 0.50`,
`severity = "Potential"`, otherwise `confidence = round(final, 2)` and
`severity = "High"` iff the unrounded final confidence exceeds `0.7`. -/
def buildClassified (item : FindingDict) (confidenceSecret : ℚ) (predSecret : Bool)
    (ctx : Option (ℚ × Bool)) : FindingDict :=
  let item1 := { item with
    secretConfidence := some (pyRound confidenceSecret 3)
    secretPrediction := some predSecret }
  let step : FindingDict × ℚ :=
    match ctx with
    | some (confidenceContext, predContext) =>
      ({ item1 with
          contextConfidence := some (pyRound confidenceContext 3)
          contextPrediction := some predContext
          confidenceAveraged := some true },
        (confidenceSecret + confidenceContext) / 2)
    | none =>
      ({ item1 with
          contextConfidence := none
          contextPrediction := none
          confidenceAveraged := some false },
        confidenceSecret)
  let item2 := step.1
  let finalConf := step.2
  if sentinelSecret item.secret then
    { item2 with confidence := some (1/2), severity := "Potential" }
  else if finalConf > 7/10 then
    { item2 with confidence := some (pyRound finalConf 2), severity := "High" }
  else
    { item2 with confidence := some (pyRound finalConf 2), severity := "Potential" }

/-- One finding's share of `filter_secrets`' model calls and decoration;
a context is used exactly when it is non-empty after stripping
(`ctx if ctx and ctx.strip() else None`, line 466).  Any raised model
error aborts the whole batch. -/
def classifyItemM (pE : String → Except Unit ℚ) (predictE : String → Except Unit Bool)
    (item : FindingDict) : Except Unit FindingDict := do
  let confidenceSecret ← pE item.secret
  let predSecret ← predictE item.secret
  if pyStrip item.context = "" then
    pure (buildClassified item confidenceSecret predSecret none)
  else do
    let confidenceContext ← pE item.context
    let predContext ← predictE item.context
    pure (buildClassified item confidenceSecret predSecret
      (some (confidenceContext, predContext)))

/-- `classifyItemM` when no model call can fail. -/
def classifyItem (p : String → ℚ) (predict : String → Bool) (item : FindingDict) :
    FindingDict :=
  buildClassified item (p item.secret) (predict item.secret)
    (if pyStrip item.context = "" then none
     else some (p item.context, predict item.context))

/-- The `except` fallback of `filter_secrets` (`app/model_loader.py`
lines 536–542): `item["confidence"] = 1.00`, and `severity` is set to
`"High"` only when it is currently falsy. -/
def filterSecretsFallbackItem (item : FindingDict) : FindingDict :=
  { item with
    confidence := some 1
    severity := if item.severity = "" then "High" else item.severity }

/-- `SecretClassifier.filter_secrets` (`app/model_loader.py` lines
434–546): classify every finding in the batch; if any model call raises,
apply the fallback to every finding of the (not yet mutated) list. -/
def filter_secrets (pE : String → Except Unit ℚ) (predictE : String → Except Unit Bool)
    (secrets : List FindingDict) : List FindingDict :=
  match secrets.mapM (classifyItemM pE predictE) with
  | .ok out => out
  | .error _ => secrets.map filterSecretsFallbackItem

/-- `filter_secrets_in_process` (`app/model_loader.py` lines 554–565):
when constructing the classifier raises (`initError`), only default the
falsy severities to `"High"` — confidence is left untouched; otherwise
delegate to `filter_secrets` (which handles its own errors). -/
def filter_secrets_in_process (initError : Bool)
    (pE : String → Except Unit ℚ) (predictE : String → Except Unit Bool)
    (secretsList : List FindingDict) : List FindingDict :=
  if initError then
    secretsList.map fun item =>
      { item with severity := if item.severity = "" then "High" else item.severity }
  else
    filter_secrets pE predictE secretsList

/-- The claim's "final confidence" of a finding: the secret probability,
averaged with the context probability when a non-empty context exists. -/
def finalConfidence (p : String → ℚ) (item : FindingDict) : ℚ :=
  if pyStrip item.context = "" then p item.secret
  else (p item.secret + p item.context) / 2

/-- C5: For every Finding processed by the batch classifier: a sentinel
secret forces confidence 0.50 and severity "Potential"; otherwise
severity is "High" if and only if the final confidence (secret
probability, averaged with the context probability when a non-empty
context exists) exceeds 0.70, else "Potential". -/
theorem c5_decision_rule (p : String → ℚ) (predict : String → Bool) (item : FindingDict) :
    (sentinelSecret item.secret = true →
      (classifyItem p predict item).confidence = some (1/2)
        ∧ (classifyItem p predict item).severity = "Potential")
    ∧ (sentinelSecret item.secret = false →
      ((classifyItem p predict item).severity = "High" ↔ finalConfidence p item > 7/10)
        ∧ ((classifyItem p predict item).severity = "Potential"
            ↔ ¬ finalConfidence p item > 7/10)) := by
  have hPH : ¬ ("Potential" : String) = "High" := by decide
  have hHP : ¬ ("High" : String) = "Potential" := by decide
  constructor
  · intro hs
    unfold classifyItem buildClassified
    by_cases hctx : pyStrip item.context = "" <;> simp [hctx, hs]
  · intro hs
    unfold classifyItem buildClassified finalConfidence
    by_cases hctx : pyStrip item.context = ""
    · by_cases hcf : p item.secret > 7/10
      · simp [hctx, hs, hcf, hHP]
      · simp [hctx, hs, hcf, hPH]
    · by_cases hcf : (p item.secret + p item.context) / 2 > 7/10
      · simp [hctx, hs, hcf, hHP]
      · simp [hctx, hs, hcf, hPH]

/-- Witness for `c5_decision_rule`: a Too-Many-Secrets sentinel finding
is forced to confidence 0.50 / "Potential", and an ordinary finding with
secret probability 0.9 (no context) is classified "High". -/
theorem c5_decision_rule_witness :
    ((classifyItem (fun _ => (9:ℚ)/10) (fun _ => true)
        { secret := "ФАЙЛ НЕ ВЫВЕДЕН ПОЛНОСТЬЮ т.к. найдено более 50 секретов." }).confidence
          = some (1/2)
      ∧ (classifyItem (fun _ => (9:ℚ)/10) (fun _ => true)
        { secret := "ФАЙЛ НЕ ВЫВЕДЕН ПОЛНОСТЬЮ т.к. найдено более 50 секретов." }).severity
          = "Potential")
    ∧ ((classifyItem (fun _ => (9:ℚ)/10) (fun _ => true)
        { secret := "aws_key_ABC" }).severity = "High"
      ↔ finalConfidence (fun _ => (9:ℚ)/10)
          ({ secret := "aws_key_ABC" } : FindingDict) > 7/10) := by
  refine ⟨(c5_decision_rule (fun _ => (9:ℚ)/10) (fun _ => true)
      { secret := "ФАЙЛ НЕ ВЫВЕДЕН ПОЛНОСТЬЮ т.к. найдено более 50 секретов." }).1 (by decide),
    ((c5_decision_rule (fun _ => (9:ℚ)/10) (fun _ => true)
      { secret := "aws_key_ABC" }).2 (by decide)).1⟩

/-- C6 counterexample: when every model call raises, a finding that
already carries severity "Potential" (e.g. a Too-Long-Line sentinel)
keeps it — the claimed "every finding ends with severity High" fails
because the fallback only sets `severity` when it is falsy. -/
theorem c6_counterexample :
    ¬ ((filter_secrets (fun _ => .error ()) (fun _ => .error ())
        [{ secret := "s", severity := "Potential" }]).all
          fun f => f.severity == "High")
      ∧ (filter_secrets (fun _ => .error ()) (fun _ => .error ())
        [{ secret := "s", severity := "Potential" }]).map (·.severity) = ["Potential"] := by
  constructor <;> decide

/-- C6 (corrected): if any error occurs during classification inside
`filter_secrets`, every finding in the list gets confidence 1.00, and
severity defaults to "High" only for findings whose severity was empty —
findings that already carry a severity keep it; the separate
`filter_secrets_in_process` construction-error path only defaults empty
severities and leaves every confidence untouched. -/
theorem c6_error_fallback (pE : String → Except Unit ℚ)
    (predictE : String → Except Unit Bool) (secrets : List FindingDict) (e : Unit)
    (herr : secrets.mapM (classifyItemM pE predictE) = .error e) :
    filter_secrets pE predictE secrets = secrets.map filterSecretsFallbackItem
    ∧ (∀ item ∈ secrets,
        (filterSecretsFallbackItem item).confidence = some 1
        ∧ (item.severity = "" → (filterSecretsFallbackItem item).severity = "High")
        ∧ (item.severity ≠ "" → (filterSecretsFallbackItem item).severity = item.severity))
    ∧ (filter_secrets_in_process true pE predictE secrets).map (·.confidence)
        = secrets.map (·.confidence) := by
  refine ⟨?_, ?_, ?_⟩
  · unfold filter_secrets
    rw [herr]
  · intro item _
    refine ⟨rfl, fun hempty => ?_, fun hne => ?_⟩
    · simp [filterSecretsFallbackItem, hempty]
    · simp [filterSecretsFallbackItem, hne]
  · unfold filter_secrets_in_process
    rw [if_pos rfl, List.map_map]
    rfl

/-- Witness for `c6_error_fallback`: a two-element batch (one finding
with a pre-set severity, one without) under an always-raising model. -/
theorem c6_error_fallback_witness :
    filter_secrets (fun _ => .error ()) (fun _ => .error ())
        [{ secret := "s", severity := "Potential" }, { secret := "t" }]
      = ([{ secret := "s", severity := "Potential" }, { secret := "t" }].map
          filterSecretsFallbackItem)
    ∧ (∀ item ∈ ([{ secret := "s", severity := "Potential" },
          { secret := "t" }] : List FindingDict),
        (filterSecretsFallbackItem item).confidence = some 1
        ∧ (item.severity = "" → (filterSecretsFallbackItem item).severity = "High")
        ∧ (item.severity ≠ "" → (filterSecretsFallbackItem item).severity = item.severity))
    ∧ (filter_secrets_in_process true (fun _ => .error ()) (fun _ => .error ())
          [{ secret := "s", severity := "Potential" }, { secret := "t" }]).map (·.confidence)
        = ([{ secret := "s", severity := "Potential" }, { secret := "t" }] :
            List FindingDict).map (·.confidence) :=
  c6_error_fallback (fun _ => .error ()) (fun _ => .error ())
    [{ secret := "s", severity := "Potential" }, { secret := "t" }] () rfl

/-! ### Directory scan and the CPU-pool stage (`app/scanner.py` lines
418–496, `app/queue_worker.py` lines 281–386) -/

/-- One regular file met by `os.walk`: its directory, basename and the
lines read from it. -/
structure RepoFile where
  dir : String
  name : String
  lines : List String
  deriving Repr

/-- The aggregate output of `scan_directory_without_callback`
(`app/scanner.py` line 480) minus the two detection maps. -/
structure ScanDirOutput where
  results : List FindingDict
  filesExcluded : Nat
  allFilesCount : Nat
  skippedFiles : String
  deriving Repr

/-- The `skipped_files` accumulator of the collection loop
(`app/scanner.py` lines 429–442): deduplicated, `*`-prefixed for
extension exclusions. -/
def skippedFilesAcc (exclFiles exclExts : List String) (acc : List String)
    (f : RepoFile) : List String :=
  let ext := get_full_extension f.name
  if is_extension_excluded ext exclExts then
    if ("*" ++ ext) ∈ acc then acc else acc ++ ["*" ++ ext]
  else if f.name ∈ exclFiles then
    if f.name ∈ acc then acc else acc ++ [f.name]
  else acc

/-- `scan_directory_without_callback` (`app/scanner.py` lines 418–480):
walk the files, skip excluded extensions and excluded (exact-case)
names, scan the rest with `_analyze_file` (batching five at a time only
bounds concurrency — the concatenation order is the file order), and
count every walked file in `all_files_count`. -/
def scan_directory_without_callback (search : String → String → Option String)
    (md5 : String → String) (rules : List Rule) (falsePositiveRules : List String)
    (exclFiles exclExts : List String) (targetDir : String)
    (repo : List RepoFile) : ScanDirOutput :=
  let fileList := repo.filter fun f =>
    !(is_extension_excluded (get_full_extension f.name) exclExts)
      && !(decide (f.name ∈ exclFiles))
  let allResults := fileList.flatMap fun f =>
    analyzeFile search md5 rules falsePositiveRules 50 15000 targetDir
      (osJoin f.dir f.name) f.lines
  { results := allResults
    filesExcluded := repo.length - fileList.length
    allFilesCount := repo.length
    skippedFiles := ⟨joinChars (", ".data)
      ((repo.foldl (skippedFilesAcc exclFiles exclExts) []).map (·.data))⟩ }

/-- A Python value as it appears in the returned tuples crossing the
process-pool boundary; the two detection maps are opaque. -/
inductive PyVal where
  | findings (fs : List FindingDict)
  | nat (n : Nat)
  | str (s : String)
  | dict
  deriving Repr

/-- `scan_repo_without_callback` (`app/scanner.py` lines 482–496)
returns the SIX-element tuple `(results, files_excluded,
all_files_count, skipped_files, detected_languages,
detected_frameworks)`. -/
def scan_repo_without_callback (search : String → String → Option String)
    (md5 : String → String) (rules : List Rule) (falsePositiveRules : List String)
    (exclFiles exclExts : List String) (targetDir : String)
    (repo : List RepoFile) : List PyVal :=
  let o := scan_directory_without_callback search md5 rules falsePositiveRules
    exclFiles exclExts targetDir repo
  [.findings o.results, .nat o.filesExcluded, .nat o.allFilesCount,
    .str o.skippedFiles, .dict, .dict]

/-- Python tuple unpacking `a, b = t`: succeeds only on a two-element
tuple, otherwise raises `ValueError`. -/
def unpack2 (vals : List PyVal) : Except String (PyVal × PyVal) :=
  match vals with
  | [a, b] => .ok (a, b)
  | [] => .error "not enough values to unpack (expected 2, got 0)"
  | [_] => .error "not enough values to unpack (expected 2, got 1)"
  | _ => .error "too many values to unpack (expected 2)"

/-- The result list of the CPU-pool stage: either classified findings or
the synthetic Process-Error stub built by the exception handler of
`scan_repo_with_model` (`app/queue_worker.py` line 312). -/
inductive ScanResults where
  | classified (fs : List FindingDict)
  | processError (error : String)
  deriving Repr

/-- `scan_repo_with_model` (`app/queue_worker.py` lines 281–312).  Line
302 unpacks the six-element return of `scan_repo_without_callback` into
the two names `results, file_count`, which raises `ValueError`; the
handler returns the Process-Error stub with file count `0`.  (Were the
unpacking ever to succeed, the next line calls the two-parameter
`filter_secrets_in_process` with a single positional argument, raising
`TypeError` into the same handler.) -/
def scan_repo_with_model (search : String → String → Option String)
    (md5 : String → String) (rules : List Rule) (falsePositiveRules : List String)
    (exclFiles exclExts : List String) (targetDir : String)
    (repo : List RepoFile) : ScanResults × Nat :=
  match unpack2 (scan_repo_without_callback search md5 rules falsePositiveRules
      exclFiles exclExts targetDir repo) with
  | .error e => (.processError e, 0)
  | .ok _ =>
    (.processError
      "filter_secrets_in_process() missing 1 required positional argument: 'secrets_list'",
      0)

/-- A scan request (`app/models.py` `ScanRequest`). -/
structure ScanRequest where
  ProjectName : String
  RepoUrl : String
  RefType : String
  Ref : String
  CallbackUrl : String
  deriving DecidableEq, Repr

/-- The success payload built by `process_request_async`
(`app/queue_worker.py` lines 365–373). -/
structure CallbackPayload where
  status : String
  message : String
  projectName : String
  projectRepoUrl : String
  repoCommit : String
  results : ScanResults
  filesScanned : Nat
  deriving Repr

/-- What a job delivers to the callback URL: the success payload, or the
error payload of `send_error_callback`. -/
inductive CallbackMessage where
  | result (payload : CallbackPayload)
  | error (message : String)
  deriving Repr

/-- `process_request_async` (`app/queue_worker.py` lines 314–386): an
empty extracted path short-circuits into an error callback; otherwise
the CPU-pool stage runs on the extracted tree (`repo`) and the payload
carries `Status="completed"` and its returned file count. -/
def process_request_async (request : ScanRequest) (commit : String)
    (downloadResult : String × String)
    (search : String → String → Option String) (md5 : String → String)
    (rules : List Rule) (falsePositiveRules : List String)
    (exclFiles exclExts : List String) (repo : List RepoFile) : CallbackMessage :=
  let (extractedRepoPath, statusMessage) := downloadResult
  if extractedRepoPath = "" then .error statusMessage
  else
    let r := scan_repo_with_model search md5 rules falsePositiveRules
      exclFiles exclExts extractedRepoPath repo
    .result
      { status := "completed"
        message := "Scanned Successfully"
        projectName := request.ProjectName
        projectRepoUrl := request.RepoUrl
        repoCommit := commit
        results := r.1
        filesScanned := r.2 }

/-- C2: the claim says that for a scan job whose fetch succeeds on a
reachable non-empty repository, the eventual callback has
Status "completed" and FilesScanned > 0.  CODE BUG: line 302 of
`app/queue_worker.py` unpacks the six-element tuple returned by
`scan_repo_without_callback` into two names, so every scan — whatever
its inputs — raises `ValueError` into the handler and returns the
Process-Error stub with file count 0; the delivered payload therefore
always has Status "completed" and FilesScanned = 0, never > 0. -/
theorem c2_files_scanned_always_zero :
    (∀ (search : String → String → Option String) (md5 : String → String)
        (rules : List Rule) (falsePositiveRules exclFiles exclExts : List String)
        (targetDir : String) (repo : List RepoFile),
      scan_repo_with_model search md5 rules falsePositiveRules exclFiles exclExts
          targetDir repo
        = (.processError "too many values to unpack (expected 2)", 0))
    ∧ process_request_async ⟨"proj", "https://dev.example/Col/Proj/_git/repo", "branch",
          "main", "http://cb.example/hook"⟩ "c0ffee1234"
        ("/tmp/scan1/extracted", "Success") literalSearch (fun _ => "")
        [⟨"", "Password", "password", "High"⟩] [] [] []
        [⟨"/tmp/scan1/extracted", "config.env", ["password = hunter2"]⟩]
      = .result
        { status := "completed"
          message := "Scanned Successfully"
          projectName := "proj"
          projectRepoUrl := "https://dev.example/Col/Proj/_git/repo"
          repoCommit := "c0ffee1234"
          results := .processError "too many values to unpack (expected 2)"
          filesScanned := 0 } := by
  constructor
  · intro search md5 rules falsePositiveRules exclFiles exclExts targetDir repo
    rfl
  · rfl

/-! ### HTTP ingress (`app/main.py`)

An endpoint is modelled as a function of the queue size probed at
ingress (`task_queue.qsize()`), `MAX_WORKERS`, and the outcome of ref
resolution; it returns the HTTP response and the queue size after the
handler ran (enqueueing is `+ 1`). -/

/-- The outcome of `check_ref_and_resolve_azure` / `_git` for a single
repository: resolved to a commit, not found (with a message), or an
exception raised during resolution. -/
inductive ResolveOutcome where
  | resolved (commit : String)
  | notFound (message : String)
  | exn (message : String)
  deriving DecidableEq, Repr

/-- Whether resolution returned `exists=True`. -/
def ResolveOutcome.isResolved : ResolveOutcome → Bool
  | .resolved _ => true
  | _ => false

/-- Status code and `status` field of a handler's JSON response. -/
structure IngressResponse where
  statusCode : Nat
  status : String
  deriving DecidableEq, Repr

/-- `POST /scan` (`app/main.py` lines 249–312): reject with 429
`queue_full` when `qsize() >= MAX_WORKERS * 2`; then resolve the ref —
not-found yields 400 `validation_failed` (directly or via the raised
`ValueError`), other exceptions 500, success enqueues and returns 200. -/
def scanEndpoint (maxWorkers queueSize : Nat) (resolve : ResolveOutcome) :
    IngressResponse × Nat :=
  if queueSize ≥ maxWorkers * 2 then
    ({ statusCode := 429, status := "queue_full" }, queueSize)
  else
    match resolve with
    | .resolved _ => ({ statusCode := 200, status := "accepted" }, queueSize + 1)
    | .notFound _ => ({ statusCode := 400, status := "validation_failed" }, queueSize)
    | .exn _ => ({ statusCode := 500, status := "error" }, queueSize)

/-- `POST /multi_scan` (`app/main.py` lines 153–245): reject with 429
when the queue is full; otherwise resolve every repository first
(failures and per-repository exceptions clear `all_resolved`), then
either enqueue the whole batch as ONE queue item (200 `accepted`) or
enqueue nothing and answer 400 `validation_failed`. -/
def multiScanEndpoint (maxWorkers queueSize : Nat)
    (resolutions : List ResolveOutcome) : IngressResponse × Nat :=
  if queueSize ≥ maxWorkers * 2 then
    ({ statusCode := 429, status := "queue_full" }, queueSize)
  else if resolutions.all (·.isResolved) then
    ({ statusCode := 200, status := "accepted" }, queueSize + 1)
  else
    ({ statusCode := 400, status := "validation_failed" }, queueSize)

/-- `POST /local_scan` (`app/main.py` lines 314–382): reject with 429
when the queue is full, 400 for a non-`.zip` upload, otherwise read the
archive and enqueue it. -/
def localScanEndpoint (maxWorkers queueSize : Nat) (filename : String) :
    IngressResponse × Nat :=
  if queueSize ≥ maxWorkers * 2 then
    ({ statusCode := 429, status := "queue_full" }, queueSize)
  else if !endsWithStr ".zip" filename then
    ({ statusCode := 400, status := "validation_failed" }, queueSize)
  else
    ({ statusCode := 200, status := "accepted" }, queueSize + 1)

/-- C7: every ingress request (scan, multi-scan, local-scan) arriving
when the queue depth is at least `2 × max_workers` gets a 429 response
with status `queue_full`, and the queue is left unchanged (nothing is
enqueued). -/
theorem c7_back_pressure (maxWorkers queueSize : Nat) (resolve : ResolveOutcome)
    (resolutions : List ResolveOutcome) (filename : String)
    (h : queueSize ≥ 2 * maxWorkers) :
    scanEndpoint maxWorkers queueSize resolve
        = ({ statusCode := 429, status := "queue_full" }, queueSize)
      ∧ multiScanEndpoint maxWorkers queueSize resolutions
        = ({ statusCode := 429, status := "queue_full" }, queueSize)
      ∧ localScanEndpoint maxWorkers queueSize filename
        = ({ statusCode := 429, status := "queue_full" }, queueSize) := by
  have h' : queueSize ≥ maxWorkers * 2 := by omega
  refine ⟨?_, ?_, ?_⟩ <;> simp [scanEndpoint, multiScanEndpoint, localScanEndpoint, h']

/-- Witness for `c7_back_pressure`: `max_workers = 1`, queue depth 2. -/
theorem c7_back_pressure_witness :
    scanEndpoint 1 2 (.resolved "abc")
        = ({ statusCode := 429, status := "queue_full" }, 2)
      ∧ multiScanEndpoint 1 2 [.resolved "abc"]
        = ({ statusCode := 429, status := "queue_full" }, 2)
      ∧ localScanEndpoint 1 2 "upload.zip"
        = ({ statusCode := 429, status := "queue_full" }, 2) :=
  c7_back_pressure 1 2 (.resolved "abc") [.resolved "abc"] "upload.zip" (by omega)

/-- C10: multi-scan enqueue is all-or-nothing — when the queue is not
full and at least one repository's ref fails to resolve, the response is
400 `validation_failed` and nothing at all is enqueued (the queue size
is unchanged, including for the repositories that did resolve). -/
theorem c10_multi_scan_all_or_nothing (maxWorkers queueSize : Nat)
    (resolutions : List ResolveOutcome)
    (hq : queueSize < maxWorkers * 2)
    (hfail : ∃ r ∈ resolutions, r.isResolved = false) :
    multiScanEndpoint maxWorkers queueSize resolutions
      = ({ statusCode := 400, status := "validation_failed" }, queueSize) := by
  unfold multiScanEndpoint
  rw [if_neg (by omega)]
  rw [if_neg]
  intro hall
  obtain ⟨r, hr, hfalse⟩ := hfail
  have := List.all_eq_true.mp hall r hr
  rw [hfalse] at this
  exact Bool.false_ne_true this

/-- Witness for `c10_multi_scan_all_or_nothing`: two repositories, the
second ref unresolved. -/
theorem c10_multi_scan_all_or_nothing_witness :
    multiScanEndpoint 2 1 [.resolved "abc", .notFound "Ветка не найдена"]
      = ({ statusCode := 400, status := "validation_failed" }, 1) :=
  c10_multi_scan_all_or_nothing 2 1 [.resolved "abc", .notFound "Ветка не найдена"]
    (by omega) ⟨.notFound "Ветка не найдена", by simp, rfl⟩

/-! ### A rule whose pattern does not compile (`app/scanner.py`)

`load_rules` performs no compilation check; `re.search` raises
`re.error` on the first use of a malformed pattern, which lands in the
per-file `except` of `_analyze_file` (line 407): the handler logs and
returns the `results` accumulated so far.  Fallible search is
`searchE : String → String → Except Unit (Option String)`. -/

/-- The per-line rule loop with fallible search: the first raising
pattern aborts the line (and with it the file). -/
def scanLineRulesE (searchE : String → String → Except Unit (Option String))
    (rules : List Rule) (falsePositiveRules : List String) (relPath : String)
    (lineNum : Nat) (line : String) : Except Unit (List FindingDict) :=
  match rules with
  | [] => .ok []
  | rule :: rest =>
    match searchE rule.pattern line with
    | .error e => .error e
    | .ok m =>
      match scanLineRulesE searchE rest falsePositiveRules relPath lineNum line with
      | .error e => .error e
      | .ok tail =>
        match m with
        | none => .ok tail
        | some secret =>
          let context := pyStrip line
          if check_false_positive secret context falsePositiveRules then .ok tail
          else
            let f : FindingDict :=
              { path := relPath
                line := lineNum
                secret := secret
                context := context
                severity := ""
                confidence := some 1
                type := rule.message }
            .ok (f :: tail)

/-- The line loop of `_analyze_file` under the `try`: on the first
raising pattern, stop and report the accumulated `results` and the abort
flag; over-long lines only append their sentinel. -/
def analyzeLinesE (searchE : String → String → Except Unit (Option String))
    (md5 : String → String) (rules : List Rule) (falsePositiveRules : List String)
    (relPath : String) (maxLineLength : Nat) :
    List (Nat × String) → List FindingDict → List FindingDict →
      (List FindingDict × List FindingDict × Bool)
  | [], results, allSecrets => (results, allSecrets, false)
  | (lineNum, line) :: rest, results, allSecrets =>
    if line.length > maxLineLength then
      analyzeLinesE searchE md5 rules falsePositiveRules relPath maxLineLength rest
        (results ++ [tooLongLineFinding md5 relPath maxLineLength lineNum line]) allSecrets
    else
      match scanLineRulesE searchE rules falsePositiveRules relPath lineNum line with
      | .error _ => (results, allSecrets, true)
      | .ok fs =>
        analyzeLinesE searchE md5 rules falsePositiveRules relPath maxLineLength rest
          results (allSecrets ++ fs)

/-- `_analyze_file` with fallible search: the `except` handler returns
the sentinels accumulated before the failure — the rule findings of the
file are lost, but nothing propagates. -/
def analyzeFileE (searchE : String → String → Except Unit (Option String))
    (md5 : String → String) (rules : List Rule) (falsePositiveRules : List String)
    (maxSecrets maxLineLength : Nat) (targetDir filePath : String)
    (lines : List String) : List FindingDict :=
  let relPath := findingPath targetDir filePath
  let out := analyzeLinesE searchE md5 rules falsePositiveRules relPath maxLineLength
    (pyEnumerate 1 lines) [] []
  if out.2.2 then out.1
  else if out.2.1.length > maxSecrets then
    [tooManySecretsFinding md5 relPath maxSecrets out.2.1]
  else out.1 ++ out.2.1

theorem scanLineRulesE_no_error (search : String → String → Option String)
    (falsePositiveRules : List String) (relPath : String) (lineNum : Nat) (line : String) :
    ∀ rules : List Rule,
      scanLineRulesE (fun p l => .ok (search p l)) rules falsePositiveRules
          relPath lineNum line
        = .ok (scanLineRules search rules falsePositiveRules relPath lineNum line) := by
  intro rules
  induction rules with
  | nil => simp [scanLineRulesE, scanLineRules]
  | cons rule rest ih =>
    simp only [scanLineRulesE, ih, scanLineRules, List.filterMap_cons]
    rcases search rule.pattern line with _ | secret
    · rfl
    · by_cases hfp : check_false_positive secret (pyStrip line) falsePositiveRules <;>
        simp only [hfp, if_true, if_false, ite_true, ite_false] <;> rfl

theorem analyzeLinesE_no_error (search : String → String → Option String)
    (md5 : String → String) (rules : List Rule) (falsePositiveRules : List String)
    (relPath : String) (maxLineLength : Nat) :
    ∀ (enum : List (Nat × String)) (results allSecrets : List FindingDict),
      analyzeLinesE (fun p l => .ok (search p l)) md5 rules falsePositiveRules relPath
          maxLineLength enum results allSecrets
        = (results ++ enum.filterMap (fun (lineNum, line) =>
              if line.length > maxLineLength then
                some (tooLongLineFinding md5 relPath maxLineLength lineNum line)
              else none),
           allSecrets ++ enum.flatMap (fun (lineNum, line) =>
              if line.length > maxLineLength then []
              else scanLineRules search rules falsePositiveRules relPath lineNum line),
           false) := by
  intro enum
  induction enum with
  | nil => intro results allSecrets; simp [analyzeLinesE]
  | cons p rest ih =>
    intro results allSecrets
    obtain ⟨lineNum, line⟩ := p
    by_cases h : line.length > maxLineLength
    · simp only [analyzeLinesE, h, if_pos, List.filterMap_cons, List.flatMap_cons, ih,
        List.append_assoc]
      simp [h]
    · simp only [analyzeLinesE, h, scanLineRulesE_no_error, List.filterMap_cons,
        List.flatMap_cons, ih, List.append_assoc]
      simp [h]

/-- C8 counterexample: the catalog `[R1 with pattern pwd, R2 with a
malformed pattern]` is returned by `load_rules` with the bad rule still
present (nothing is omitted, no warning path exists), and scanning the
line `pwd = 1` with it yields NO findings at all — the per-file handler
swallows the `re.error` and discards R1's match, whereas dropping the
bad rule (as the claim describes) would have kept R1's finding. -/
theorem c8_counterexample :
    load_rules (.ok [⟨"", "R1", "pwd", "High"⟩, ⟨"", "R2", "(", "High"⟩])
        = some [⟨"", "R1", "pwd", "High"⟩, ⟨"", "R2", "(", "High"⟩]
      ∧ analyzeFileE (fun p l => if p = "(" then .error () else .ok (literalSearch p l))
          (fun _ => "") [⟨"", "R1", "pwd", "High"⟩, ⟨"", "R2", "(", "High"⟩] [] 50 15000
          "" "/f" ["pwd = 1"] = []
      ∧ analyzeFile literalSearch (fun _ => "") [⟨"", "R1", "pwd", "High"⟩] [] 50 15000
          "" "/f" ["pwd = 1"] ≠ [] := by
  refine ⟨rfl, by decide, by decide⟩

/-- C8 (corrected): `load_rules` performs no compilation check, so a
rule with a malformed pattern stays in the catalog; during a scan its
first application raises inside `_analyze_file`, whose per-file handler
contains the error (the process and other files are unaffected) but
discards the affected file's rule findings — the remaining rules are NOT
still applied to that file.  Whenever every pattern application
succeeds, the fallible scanner coincides with the plain one: all rules
are applied normally. -/
theorem c8_bad_rule_contained_but_file_lost :
    (∀ (search : String → String → Option String) (md5 : String → String)
        (rules : List Rule) (falsePositiveRules : List String)
        (maxSecrets maxLineLength : Nat) (targetDir filePath : String)
        (lines : List String),
      analyzeFileE (fun p l => .ok (search p l)) md5 rules falsePositiveRules
          maxSecrets maxLineLength targetDir filePath lines
        = analyzeFile search md5 rules falsePositiveRules maxSecrets maxLineLength
            targetDir filePath lines)
    ∧ (∀ rules : List Rule, load_rules (.ok rules) = some rules)
    ∧ analyzeFileE (fun p l => if p = "(" then .error () else .ok (literalSearch p l))
        (fun _ => "") [⟨"", "R1", "pwd", "High"⟩, ⟨"", "R2", "(", "High"⟩] [] 50 15000
        "" "/f" ["pwd = 1"] = [] := by
  refine ⟨?_, fun _ => rfl, by decide⟩
  intro search md5 rules falsePositiveRules maxSecrets maxLineLength targetDir filePath lines
  simp only [analyzeFileE, analyzeFile]
  rw [analyzeLinesE_no_error]
  rfl

/-! ### The callback envelope (`send_callback`, `app/queue_worker.py`
lines 388–424)

The payload's serialized UTF-8 JSON bytes are a parameter
`payloadBytes : List Nat` (each < 256); `gzip.compress` /
`gzip.decompress` are parameters constrained only by the library
contract that decompression inverts compression and produces bytes.
`base64.b64encode` (standard alphabet, `=` padding) is implemented
concretely and proved to round-trip. -/

/-- The 64 standard base64 alphabet characters. -/
def b64Alphabet : List Char :=
  "ABCDEFGHIJKLMNOPQRSTUVWXYZabcdefghijklmnopqrstuvwxyz0123456789+/".data

/-- The character encoding a sextet. -/
def encChar (n : Nat) : Char :=
  b64Alphabet.getD n 'A'

def decCharAux (c : Char) : List Char → Nat → Option Nat
  | [], _ => none
  | a :: rest, i => if a = c then some i else decCharAux c rest (i + 1)

/-- The sextet a character decodes to, if any. -/
def decChar (c : Char) : Option Nat :=
  decCharAux c b64Alphabet 0

/-- `base64.b64encode` on a byte list: 3 bytes to 4 sextet characters,
with `=` padding for the 1- and 2-byte tails. -/
def b64encode : List Nat → List Char
  | [] => []
  | [a] => [encChar (a / 4), encChar (a % 4 * 16), '=', '=']
  | [a, b] => [encChar (a / 4), encChar (a % 4 * 16 + b / 16), encChar (b % 16 * 4), '=']
  | a :: b :: c :: rest =>
    encChar (a / 4) :: encChar (a % 4 * 16 + b / 16) :: encChar (b % 16 * 4 + c / 64)
      :: encChar (c % 64) :: b64encode rest

/-- `base64.b64decode` on well-formed input: groups of four characters,
the last possibly `=`-padded. -/
def b64decode : List Char → Option (List Nat)
  | [] => some []
  | c1 :: c2 :: c3 :: c4 :: rest =>
    match decChar c1, decChar c2 with
    | some s1, some s2 =>
      if c3 = '=' then
        if c4 = '=' ∧ rest = [] then some [s1 * 4 + s2 / 16] else none
      else
        match decChar c3 with
        | some s3 =>
          if c4 = '=' then
            if rest = [] then some [s1 * 4 + s2 / 16, s2 % 16 * 16 + s3 / 4] else none
          else
            match decChar c4, b64decode rest with
            | some s4, some tl =>
              some ((s1 * 4 + s2 / 16) :: (s2 % 16 * 16 + s3 / 4) :: (s3 % 4 * 64 + s4) :: tl)
            | _, _ => none
        | none => none
    | _, _ => none
  | _ => none

theorem decChar_encChar : ∀ s : Nat, s < 64 → decChar (encChar s) = some s := by
  decide

theorem encChar_ne_pad : ∀ s : Nat, s < 64 → ¬ encChar s = '=' := by
  decide

/-- Decoding inverts encoding on byte lists. -/
theorem b64decode_b64encode :
    ∀ bs : List Nat, (∀ x ∈ bs, x < 256) → b64decode (b64encode bs) = some bs := by
  intro bs
  induction bs using b64encode.induct with
  | case1 =>
    intro _
    simp [b64encode, b64decode]
  | case2 a =>
    intro h
    have ha : a < 256 := h a (by simp)
    have h1 := decChar_encChar (a / 4) (by omega)
    have h2 := decChar_encChar (a % 4 * 16) (by omega)
    simp only [b64encode, b64decode, h1, h2, if_pos rfl, and_self, ite_true,
      Option.some.injEq, List.cons.injEq, and_true]
    omega
  | case3 a b =>
    intro h
    have ha : a < 256 := h a (by simp)
    have hb : b < 256 := h b (by simp)
    have h1 := decChar_encChar (a / 4) (by omega)
    have h2 := decChar_encChar (a % 4 * 16 + b / 16) (by omega)
    have h3 := decChar_encChar (b % 16 * 4) (by omega)
    have hne := encChar_ne_pad (b % 16 * 4) (by omega)
    simp only [b64encode, b64decode, h1, h2, h3, if_neg hne, if_pos rfl, ite_true,
      Option.some.injEq, List.cons.injEq, and_true]
    refine ⟨by omega, by omega⟩
  | case4 a b c rest ih =>
    intro h
    have ha : a < 256 := h a (by simp)
    have hb : b < 256 := h b (by simp)
    have hc : c < 256 := h c (by simp)
    have hrest : ∀ x ∈ rest, x < 256 := fun x hx => h x (by simp [hx])
    have h1 := decChar_encChar (a / 4) (by omega)
    have h2 := decChar_encChar (a % 4 * 16 + b / 16) (by omega)
    have h3 := decChar_encChar (b % 16 * 4 + c / 64) (by omega)
    have h4 := decChar_encChar (c % 64) (by omega)
    have hne3 := encChar_ne_pad (b % 16 * 4 + c / 64) (by omega)
    have hne4 := encChar_ne_pad (c % 64) (by omega)
    simp only [b64encode, b64decode, h1, h2, h3, h4, if_neg hne3, if_neg hne4, ih hrest,
      Option.some.injEq, List.cons.injEq, and_true]
    refine ⟨by omega, by omega, by omega⟩

/-- The compressed payload dict built by `send_callback`
(`app/queue_worker.py` lines 406–411): `compressed`, `data` (base64 of
the gzip output), `original_size` (UTF-8 byte length of the payload
JSON) and `compressed_size` (gzip output length). -/
structure CallbackEnvelope where
  compressed : Bool
  data : List Char
  originalSize : Nat
  compressedSize : Nat
  deriving Repr

/-- The envelope-construction steps of `send_callback`
(`app/queue_worker.py` lines 394–411), over the serialized payload
bytes and the gzip implementation. -/
def sendCallbackEnvelope (gzipCompress : List Nat → List Nat)
    (payloadBytes : List Nat) : CallbackEnvelope :=
  let compressedData := gzipCompress payloadBytes
  { compressed := true
    data := b64encode compressedData
    originalSize := payloadBytes.length
    compressedSize := compressedData.length }

/-- C9: for every callback payload, base64-decoding the envelope's
`data` and gunzipping the result yields exactly the original UTF-8 JSON
bytes, `original_size` is the length of those bytes and
`compressed_size` the length of the gzip output — given only the gzip
library contract (decompress inverts compress, output is bytes). -/
theorem c9_envelope_roundtrip (gzipCompress gzipDecompress : List Nat → List Nat)
    (payloadBytes : List Nat)
    (hinv : ∀ bs, gzipDecompress (gzipCompress bs) = bs)
    (hbytes : ∀ x ∈ gzipCompress payloadBytes, x < 256) :
    (sendCallbackEnvelope gzipCompress payloadBytes).compressed = true
    ∧ (b64decode (sendCallbackEnvelope gzipCompress payloadBytes).data).map gzipDecompress
        = some payloadBytes
    ∧ (sendCallbackEnvelope gzipCompress payloadBytes).originalSize = payloadBytes.length
    ∧ (sendCallbackEnvelope gzipCompress payloadBytes).compressedSize
        = (gzipCompress payloadBytes).length := by
  refine ⟨rfl, ?_, rfl, rfl⟩
  show (b64decode (b64encode (gzipCompress payloadBytes))).map gzipDecompress
    = some payloadBytes
  rw [b64decode_b64encode _ hbytes]
  simp [hinv]

/-- Witness for `c9_envelope_roundtrip`: the identity codec on the five
bytes of a small JSON document. -/
theorem c9_envelope_roundtrip_witness :
    (sendCallbackEnvelope id [123, 34, 97, 34, 125]).compressed = true
    ∧ (b64decode (sendCallbackEnvelope id [123, 34, 97, 34, 125]).data).map id
        = some [123, 34, 97, 34, 125]
    ∧ (sendCallbackEnvelope id [123, 34, 97, 34, 125]).originalSize
        = ([123, 34, 97, 34, 125] : List Nat).length
    ∧ (sendCallbackEnvelope id [123, 34, 97, 34, 125]).compressedSize
        = (id [123, 34, 97, 34, 125] : List Nat).length :=
  c9_envelope_roundtrip id id [123, 34, 97, 34, 125] (fun _ => rfl) (by decide)
